import Mathlib

/-!
Verification of the fantasy_football_war repository.

The definitions below are a shallow embedding of the Python sources under
`src/fantasy_war/`.  Float arithmetic on data values is modelled over `ℚ`
where the code is pure rational arithmetic, and over `ℝ` where the code
calls transcendental functions (the normal cumulative distribution function
of `scipy.stats.norm.cdf`, and `sqrt` inside standard deviations).
Functions that can raise a Python exception are modelled with
`Except String`; the string names the exception class.
-/

namespace FantasyWar

/-! ### Generic insertion sort used to model dataframe sorts -/

def insertBy {α : Type} (le : α → α → Bool) (a : α) : List α → List α
  | [] => [a]
  | b :: l => if le a b then a :: b :: l else b :: insertBy le a l

def sortBy {α : Type} (le : α → α → Bool) : List α → List α
  | [] => []
  | a :: l => insertBy le a (sortBy le l)

/-- Mean of a list of rationals, as computed by a dataframe mean over a
nonempty column (Lean evaluates the empty case to 0 via division by zero,
a case never used by the theorems below). -/
def qmean (l : List ℚ) : ℚ := l.sum / l.length

/-! ### Kicking scoring (config/scoring.py, calculators/fantasy_points.py,
data/processors.py) -/

/-- KickingScoring coefficients of `config/scoring.py` shared by both kicking
paths; field defaults are the literal source values. -/
structure KickingScoring where
  fg_missed : ℚ := -6
  extra_points : ℚ := 3/10
  extra_points_missed : ℚ := -2
  fumbles_special_teams : ℚ := -6

/-- Statistic mapping consumed by the kicking scorers.  The Python code reads
a dict with `stats.get(key, 0)`; a total record of the read keys is the same
function. -/
structure KickingStatline where
  fg_made_0_19 : ℚ := 0
  fg_made_20_29 : ℚ := 0
  fg_made_30_39 : ℚ := 0
  fg_made_40_49 : ℚ := 0
  fg_made_50_59 : ℚ := 0
  fg_made_60 : ℚ := 0
  fg_missed_0_19 : ℚ := 0
  fg_missed_20_29 : ℚ := 0
  fg_missed_30_39 : ℚ := 0
  fg_missed_40_49 : ℚ := 0
  fg_missed_50_59 : ℚ := 0
  fg_missed_60 : ℚ := 0
  pat_made : ℚ := 0
  pat_missed : ℚ := 0
  pat_blocked : ℚ := 0
  fumbles_special_teams : ℚ := 0

/-- FantasyPointsCalculator.calculate_kicking_points, the single-player path
(calculators/fantasy_points.py lines 165-200). -/
def calculate_kicking_points (scoring : KickingScoring) (stats : KickingStatline) : ℚ :=
  stats.fg_made_0_19 * 5 +
  stats.fg_made_20_29 * 5 +
  stats.fg_made_30_39 * 5 +
  stats.fg_made_40_49 * 6 +
  stats.fg_made_50_59 * 7 +
  stats.fg_made_60 * 7 +
  stats.fg_missed_0_19 * scoring.fg_missed +
  stats.fg_missed_20_29 * scoring.fg_missed +
  stats.fg_missed_30_39 * scoring.fg_missed +
  stats.fg_missed_40_49 * scoring.fg_missed +
  stats.fg_missed_50_59 * scoring.fg_missed +
  stats.fg_missed_60 * scoring.fg_missed +
  stats.pat_made * scoring.extra_points +
  stats.pat_missed * scoring.extra_points_missed +
  stats.pat_blocked * scoring.extra_points_missed +
  stats.fumbles_special_teams * scoring.fumbles_special_teams

/-- StatsProcessor._calculate_kicking_points, the vectorized path
(data/processors.py lines 236-260), evaluated on one row.  The 0-19 bucket
scores 3.0 here and no special-teams fumble term is present. -/
def processor_calculate_kicking_points (scoring : KickingScoring) (stats : KickingStatline) : ℚ :=
  stats.fg_made_0_19 * 3 +
  stats.fg_made_20_29 * 5 +
  stats.fg_made_30_39 * 5 +
  stats.fg_made_40_49 * 6 +
  stats.fg_made_50_59 * 7 +
  stats.fg_made_60 * 7 +
  stats.fg_missed_0_19 * scoring.fg_missed +
  stats.fg_missed_20_29 * scoring.fg_missed +
  stats.fg_missed_30_39 * scoring.fg_missed +
  stats.fg_missed_40_49 * scoring.fg_missed +
  stats.fg_missed_50_59 * scoring.fg_missed +
  stats.fg_missed_60 * scoring.fg_missed +
  stats.pat_made * scoring.extra_points +
  stats.pat_missed * scoring.extra_points_missed +
  stats.pat_blocked * scoring.extra_points_missed

/-! ### Validators (utils/validators.py) -/

/-- Digits of a decimal numeral folded into a natural number; `none` when a
character is not a digit or the list is empty. -/
def natFromDigits : List Char → Option ℕ
  | [] => none
  | l => go l 0
where
  go : List Char → ℕ → Option ℕ
    | [], acc => some acc
    | c :: t, acc => if c.isDigit then go t (acc * 10 + (c.toNat - 48)) else none

/-- Python int() applied to a canonical decimal numeral with an optional
leading minus sign; any other string raises ValueError, modelled by none. -/
def pyInt (s : String) : Option Int :=
  match s.data with
  | '-' :: rest => (natFromDigits rest).map (fun n => -(n : Int))
  | l => (natFromDigits l).map (fun n => (n : Int))

/-- Python `c in s` membership test on a single character. -/
def pyContains (s : String) (c : Char) : Bool := s.data.contains c

/-- Python str.strip(): leading and trailing whitespace removed. -/
def pyStrip (s : String) : String :=
  ⟨((s.data.dropWhile (·.isWhitespace)).reverse.dropWhile (·.isWhitespace)).reverse⟩

/-- Characters split at every occurrence of the separator, as Python
str.split does (an empty input yields one empty part). -/
def splitChar (c : Char) : List Char → List (List Char)
  | [] => [[]]
  | a :: t =>
    if a = c then [] :: splitChar c t
    else
      match splitChar c t with
      | [] => [[a]]
      | h :: r => (a :: h) :: r

/-- Python `weeks.split("-", 1)`: the part before the first dash and the
rest of the string (which keeps any further dash). -/
def splitFirstDash (s : String) : String × String :=
  match go s.data with
  | none => (s, "")
  | some (x, y) => (⟨x⟩, ⟨y⟩)
where
  go : List Char → Option (List Char × List Char)
    | [] => none
    | a :: t =>
      if a = '-' then some ([], t)
      else
        match go t with
        | none => none
        | some (x, y) => some (a :: x, y)

/-- validate_week of utils/validators.py applied to a string, as done inside
validate_weeks_list; int() failure and the out-of-range check both raise
ValueError with a descriptive message. -/
def validate_week_str (s : String) : Except String Int :=
  match pyInt s with
  | none => Except.error "Invalid week: must be a valid week number."
  | some w =>
    if w < 1 ∨ w > 18 then Except.error "Week is invalid. Must be between 1 and 18."
    else Except.ok w

/-- validate_weeks_list of utils/validators.py on a string argument
(lines 109-146).  The range branch re-raises the descriptive range error and
wraps any other ValueError into the range-format error; the comma branch
validates each comma-separated part and returns the sorted deduplicated
weeks. -/
def validate_weeks_list (weeks : String) : Except String (List Int) :=
  if pyContains weeks '-' ∧ ¬ pyContains weeks ',' then
    let parts := splitFirstDash weeks
    match validate_week_str parts.1, validate_week_str parts.2 with
    | Except.ok start_week, Except.ok end_week =>
      if start_week > end_week then
        Except.error "Invalid week range: start week must be lower or equal to end week."
      else
        Except.ok ((List.range (end_week + 1 - start_week).toNat).map
          (fun (i : ℕ) => start_week + (i : Int)))
    | _, _ => Except.error "Invalid week range format."
  else
    match ((splitChar ',' weeks.data).map (fun w => pyStrip ⟨w⟩)).mapM validate_week_str with
    | Except.error e => Except.error e
    | Except.ok l => Except.ok (sortBy (fun a b => a ≤ b) l.eraseDups)

/-! ### League configuration (config/leagues.py) -/

/-- RosterRequirements of config/leagues.py with the literal field defaults. -/
structure RosterRequirements where
  qb_min : ℕ := 1
  qb_max : ℕ := 1
  rb_min : ℕ := 1
  rb_max : ℕ := 2
  wr_min : ℕ := 2
  wr_max : ℕ := 4
  te_min : ℕ := 1
  te_max : ℕ := 2
  pk_min : ℕ := 1
  pk_max : ℕ := 1
  pn_min : ℕ := 1
  pn_max : ℕ := 1
  dt_min : ℕ := 2
  dt_max : ℕ := 3
  de_min : ℕ := 2
  de_max : ℕ := 3
  lb_min : ℕ := 1
  lb_max : ℕ := 3
  cb_min : ℕ := 2
  cb_max : ℕ := 4
  s_min : ℕ := 2
  s_max : ℕ := 3
  offensive_flex_max : ℕ := 7
  total_idp : ℕ := 12
  total_starters : ℕ := 21

/-- RosterRequirements.get_position_requirements: a lookup returning (0, 0)
for unknown position codes. -/
def RosterRequirements.get_position_requirements (r : RosterRequirements)
    (position : String) : ℕ × ℕ :=
  if position = "QB" then (r.qb_min, r.qb_max)
  else if position = "RB" then (r.rb_min, r.rb_max)
  else if position = "WR" then (r.wr_min, r.wr_max)
  else if position = "TE" then (r.te_min, r.te_max)
  else if position = "PK" then (r.pk_min, r.pk_max)
  else if position = "PN" then (r.pn_min, r.pn_max)
  else if position = "DT" then (r.dt_min, r.dt_max)
  else if position = "DE" then (r.de_min, r.de_max)
  else if position = "LB" then (r.lb_min, r.lb_max)
  else if position = "CB" then (r.cb_min, r.cb_max)
  else if position = "S" then (r.s_min, r.s_max)
  else (0, 0)

/-- LeagueConfig of config/leagues.py restricted to the fields consumed by
the calculators. -/
structure LeagueConfig where
  teams : ℕ := 16
  roster : RosterRequirements := {}
  minimum_games_played : ℕ := 1

/-- LeagueConfig.get_all_positions: positions with a positive maximum
starter requirement, in the fixed source order. -/
def LeagueConfig.get_all_positions (cfg : LeagueConfig) : List String :=
  ["QB", "RB", "WR", "TE", "PK", "PN", "DT", "DE", "LB", "CB", "S"].filter
    (fun p => 0 < (cfg.roster.get_position_requirements p).2)

/-! ### Replacement level calculator (calculators/replacement.py) -/

/-- Season-aggregated player row as consumed by the replacement calculator:
the columns read from the stats dataframe. -/
structure SeasonRow where
  player_id : String
  position : String
  games_played : ℚ
  total_fantasy_points_mppr : ℚ
  avg_fantasy_points_mppr : ℚ
  deriving DecidableEq

/-- Descending sort by total MPPR fantasy points, modelling
`sort("total_fantasy_points_mppr", descending=True)`. -/
def sortDescByPoints (l : List SeasonRow) : List SeasonRow :=
  sortBy (fun a b => b.total_fantasy_points_mppr ≤ a.total_fantasy_points_mppr) l

/-- Qualified players at a position: the filter of find_replacement_level
(position match and minimum games played). -/
def qualified_at (cfg : LeagueConfig) (stats : List SeasonRow) (position : String) :
    List SeasonRow :=
  stats.filter (fun r =>
    r.position = position ∧ (cfg.minimum_games_played : ℚ) ≤ r.games_played)

/-- Replacement information dictionary assembled by find_replacement_level
(replacement.py lines 100-114), with the nested avg_starter_info flattened
into prefixed fields. -/
structure ReplacementInfo where
  player_id : String
  rank : ℕ
  total_starters : ℕ
  avg_fantasy_points : ℚ
  total_fantasy_points : ℚ
  games_played : ℚ
  position_avg_fantasy_points : ℚ
  avg_starter_avg_fantasy_points : ℚ
  avg_starter_total_fantasy_points : ℚ
  avg_starter_games_played : ℚ
  avg_starter_win_prob : ℚ

/-- Replacement information dictionary assembled by find_replacement_level
from the replacement row r (replacement.py lines 100-114), factored out so
that theorems can speak about the returned record. -/
def replacement_info_of (cfg : LeagueConfig) (stats : List SeasonRow)
    (position : String) (r : SeasonRow) : ReplacementInfo :=
  let starter_pool_size := cfg.teams * (cfg.roster.get_position_requirements position).2
  let position_players := sortDescByPoints (qualified_at cfg stats position)
  let starter_pool := position_players.take starter_pool_size
  let avg_starter_points := qmean (starter_pool.map (·.total_fantasy_points_mppr))
  let avg_starter_games := qmean (starter_pool.map (·.games_played))
  { player_id := r.player_id
    rank :=
      if position_players.length < starter_pool_size then position_players.length
      else starter_pool_size
    total_starters := starter_pool_size
    avg_fantasy_points := r.avg_fantasy_points_mppr
    total_fantasy_points := r.total_fantasy_points_mppr
    games_played := r.games_played
    position_avg_fantasy_points := qmean (starter_pool.map (·.avg_fantasy_points_mppr))
    avg_starter_avg_fantasy_points := avg_starter_points / avg_starter_games
    avg_starter_total_fantasy_points := avg_starter_points
    avg_starter_games_played := avg_starter_games
    avg_starter_win_prob := 1/2 }

/-- ReplacementLevelCalculator.find_replacement_level
(calculators/replacement.py lines 24-123). -/
def find_replacement_level (cfg : LeagueConfig) (stats : List SeasonRow)
    (position : String) : Option ReplacementInfo :=
  let max_req := (cfg.roster.get_position_requirements position).2
  if max_req = 0 then none
  else
    let starter_pool_size := cfg.teams * max_req
    let position_players := sortDescByPoints (qualified_at cfg stats position)
    let starter_pool := position_players.take starter_pool_size
    match starter_pool.getLast? with
    | none => none
    | some r => some (replacement_info_of cfg stats position r)

/-- Flex replacement dictionary built by find_flex_replacement_level just
before the failing logging statement. -/
structure FlexInfo where
  player_id : String
  rank : ℕ
  total_starters : ℕ
  avg_fantasy_points : ℚ
  total_fantasy_points : ℚ
  games_played : ℚ
  avg_starter_avg_fantasy_points : ℚ
  avg_starter_total_fantasy_points : ℚ
  avg_starter_games_played : ℚ

/-- Eligible flex players of find_flex_replacement_level: flex positions,
not already consumed by a dedicated starter slot, meeting the minimum games
threshold, sorted descending by total points (replacement.py lines 146-174). -/
def flex_eligible_at (cfg : LeagueConfig) (stats : List SeasonRow)
    (flex_positions : List String) : List SeasonRow :=
  let used_players := flex_positions.foldl (fun acc position =>
    let mx := (cfg.roster.get_position_requirements position).2
    if 0 < mx then
      acc ++ ((sortDescByPoints (stats.filter (fun r => r.position = position))).take
        (cfg.teams * mx)).map (·.player_id)
    else acc) []
  sortDescByPoints (stats.filter (fun r =>
    flex_positions.contains r.position ∧ ¬ used_players.contains r.player_id ∧
      (cfg.minimum_games_played : ℚ) ≤ r.games_played))

/-- ReplacementLevelCalculator.find_flex_replacement_level
(calculators/replacement.py lines 125-216).  The final logging statement of
the source interpolates the name `replacement_info`, which is undefined in
that method, so whenever a flex replacement row is found the function raises
NameError instead of returning the assembled dictionary; this is modelled by
the `Except.error` outcome carrying the exception class name. -/
def find_flex_replacement_level (cfg : LeagueConfig) (stats : List SeasonRow)
    (flex_positions : List String) (flex_spots : ℕ) :
    Except String (Option FlexInfo) :=
  let flex_eligible := flex_eligible_at cfg stats flex_positions
  let flex_replacement_rank :=
    if flex_eligible.length < flex_spots then flex_eligible.length else flex_spots
  match (if flex_replacement_rank = 0 then none
         else flex_eligible[flex_replacement_rank - 1]?) with
  | none => Except.ok none
  | some r =>
    let flex_starters := flex_eligible.take flex_spots
    let avg_flex_points := qmean (flex_starters.map (·.total_fantasy_points_mppr))
    let avg_flex_games := qmean (flex_starters.map (·.games_played))
    let _flex_replacement_info : FlexInfo :=
      { player_id := r.player_id
        rank := flex_replacement_rank
        total_starters := flex_spots
        avg_fantasy_points := r.avg_fantasy_points_mppr
        total_fantasy_points := r.total_fantasy_points_mppr
        games_played := r.games_played
        avg_starter_avg_fantasy_points := avg_flex_points / avg_flex_games
        avg_starter_total_fantasy_points := avg_flex_points
        avg_starter_games_played := avg_flex_games }
    -- the dictionary is fully assembled, then the logging line raises
    Except.error "NameError: name replacement_info is not defined"

/-- Sample standard deviation with ddof 1, as polars Series.std computes it:
`null` (modelled by `none`) for fewer than two samples. -/
noncomputable def qstd_sample (l : List ℚ) : Option ℝ :=
  if l.length < 2 then none
  else some (Real.sqrt ((l.map (fun x => ((x : ℝ) - (qmean l : ℝ)) ^ 2)).sum /
    ((l.length : ℝ) - 1)))

/-- Scarcity computation of ReplacementLevelCalculator.calculate_positional_scarcity
for one position (calculators/replacement.py lines 234-265).  With exactly one
qualified player the sample standard deviation is null, and the division
`points_std / points_mean` inside the guarded branch raises TypeError. -/
noncomputable def scarcity_for_position (cfg : LeagueConfig) (stats : List SeasonRow)
    (position : String) : Except String ℝ :=
  let position_players := qualified_at cfg stats position
  if position_players.length = 0 then Except.ok 1
  else
    let points_std := qstd_sample (position_players.map (·.total_fantasy_points_mppr))
    let points_mean := qmean (position_players.map (·.total_fantasy_points_mppr))
    let starter_pool_size := cfg.teams * (cfg.roster.get_position_requirements position).2
    if 0 < points_mean ∧ 0 < starter_pool_size then
      match points_std with
      | none => Except.error "TypeError: unsupported operand types NoneType and float"
      | some s =>
        let coefficient_of_variation := s / (points_mean : ℝ)
        let pool_factor := (100 : ℝ) / (starter_pool_size : ℝ)
        Except.ok (min (1 + coefficient_of_variation * pool_factor * (1/2)) 2)
    else Except.ok 1

/-- ReplacementLevelCalculator.calculate_positional_scarcity
(calculators/replacement.py lines 218-268): the loop over all league
positions, aborted by the first raised exception. -/
noncomputable def calculate_positional_scarcity (cfg : LeagueConfig)
    (stats : List SeasonRow) : Except String (List (String × ℝ)) :=
  cfg.get_all_positions.foldlM (fun acc position => do
    let s ← scarcity_for_position cfg stats position
    pure (acc ++ [(position, s)])) []

section RealSide

open scoped Classical

/-! ### Win probability calculator (calculators/win_probability.py) -/

/-- Cumulative distribution function of the standard normal distribution,
modelling `scipy.stats.norm.cdf` at loc 0 and scale 1. -/
noncomputable def stdNormCdf (z : ℝ) : ℝ :=
  ∫ t in Set.Iic z, ProbabilityTheory.gaussianPDFReal 0 1 t

/-- scipy.stats.norm.cdf with location and scale parameters: the scipy
implementation standardizes the argument and evaluates the standard normal
distribution function. -/
noncomputable def normCdf (x loc scale : ℝ) : ℝ := stdNormCdf ((x - loc) / scale)

/-- WinProbabilityCalculator.calculate_win_probability
(calculators/win_probability.py lines 26-64): a non-positive standard
deviation is replaced by 1.0, then the normal distribution function is
evaluated and clamped to the unit interval. -/
noncomputable def calculate_win_probability (player_score team_average_score
    team_score_std : ℝ) : ℝ :=
  let std := if team_score_std ≤ 0 then 1 else team_score_std
  let win_prob := normCdf player_score team_average_score std
  max 0 (min 1 win_prob)

/-- Team scoring context dictionary passed into the win probability and WAR
computations. -/
structure TeamContext where
  team_avg_score : ℝ
  team_score_std : ℝ

/-- Point of the WAR curve produced by
calculate_value_over_replacement_curve. -/
structure CurvePoint where
  fantasy_points : ℝ
  win_probability : ℝ
  expected_wins : ℝ
  war : ℝ
  marginal_war : ℝ

/-- numpy.linspace: an evenly spaced grid of n values from a to b
inclusive. -/
noncomputable def linspace (a b : ℝ) (n : ℕ) : List ℝ :=
  if n = 0 then []
  else if n = 1 then [a]
  else (List.range n).map (fun i => a + i * (b - a) / ((n : ℝ) - 1))

/-- Loop body of calculate_value_over_replacement_curve: each produced point
assumes a fixed 17-game season, and the marginal WAR subtracts the war of the
previously appended point (0 when the list is still empty, carried here in
the second argument). -/
noncomputable def buildCurve (wp : ℝ → ℝ) (replacement_wins : ℝ) :
    List ℝ → ℝ → List CurvePoint
  | [], _ => []
  | p :: rest, prev =>
    let win_prob := wp p
    let expected_wins := win_prob * 17
    let war := expected_wins - replacement_wins
    { fantasy_points := p
      win_probability := win_prob
      expected_wins := expected_wins
      war := war
      marginal_war := war - prev } :: buildCurve wp replacement_wins rest war

/-- WinProbabilityCalculator.calculate_value_over_replacement_curve
(calculators/win_probability.py lines 216-277). -/
noncomputable def calculate_value_over_replacement_curve (min_points max_points : ℝ)
    (replacement_level_points : ℝ) (ctx : TeamContext) (num_points : ℕ) :
    List CurvePoint :=
  if max_points ≤ min_points then []
  else
    let replacement_win_prob := calculate_win_probability replacement_level_points
      ctx.team_avg_score ctx.team_score_std
    buildCurve
      (fun p => calculate_win_probability p ctx.team_avg_score ctx.team_score_std)
      (replacement_win_prob * 17) (linspace min_points max_points num_points) 0

/-! ### WAR engine (calculators/war_engine.py) -/

/-- Season-aggregated player row consumed by the WAR engine, with the
dataframe float columns modelled over the reals. -/
structure PlayerSeasonRow where
  player_id : String
  season : Int
  position : String
  player_name : Option String := none
  team : Option String := none
  games_played : ℝ
  total_fantasy_points_mppr : ℝ
  avg_fantasy_points_mppr : ℝ

/-- Fields of the replacement_info dictionary as consumed by
_calculate_player_war; the engine reads avg_fantasy_points and the nested
average starter average, while total_fantasy_points and games_played ride
along from find_replacement_level without being read. -/
structure ReplacementInfoR where
  avg_fantasy_points : ℝ
  total_fantasy_points : ℝ
  games_played : ℝ
  avg_starter_avg_fantasy_points : ℝ

/-- WARResult fields computed by _calculate_player_war
(models/war_results.py). -/
structure WARResult where
  player_id : String
  season : Int
  position : String
  player_name : Option String
  team : Option String
  games_played : ℝ
  total_fantasy_points : ℝ
  average_fantasy_points : ℝ
  win_percentage : ℝ
  expected_wins : ℝ
  replacement_win_percentage : ℝ
  replacement_expected_wins : ℝ
  wins_above_replacement : ℝ
  wins_above_average : ℝ
  team_average_score : ℝ
  team_score_std : ℝ

/-- WARCalculator._calculate_player_war (calculators/war_engine.py lines
179-264).  The player side evaluates the win probability at the total season
points while the replacement side evaluates it at the replacement average
fantasy points, exactly as the source does. -/
noncomputable def _calculate_player_war (player_data : PlayerSeasonRow)
    (replacement_info : ReplacementInfoR) (team_context : TeamContext) : WARResult :=
  let player_fp := player_data.total_fantasy_points_mppr
  let avg_fp := player_data.avg_fantasy_points_mppr
  let games_played := player_data.games_played
  let win_prob := calculate_win_probability player_fp
    team_context.team_avg_score team_context.team_score_std
  let expected_wins := win_prob * games_played
  let replacement_fp := replacement_info.avg_fantasy_points
  let replacement_win_prob := calculate_win_probability replacement_fp
    team_context.team_avg_score team_context.team_score_std
  let replacement_wins := replacement_win_prob * games_played
  let wins_above_replacement := expected_wins - replacement_wins
  let avg_starter_win_prob := calculate_win_probability
    replacement_info.avg_starter_avg_fantasy_points
    team_context.team_avg_score team_context.team_score_std
  let avg_starter_wins := avg_starter_win_prob * games_played
  let wins_above_average := expected_wins - avg_starter_wins
  { player_id := player_data.player_id
    season := player_data.season
    position := player_data.position
    player_name := player_data.player_name
    team := player_data.team
    games_played := games_played
    total_fantasy_points := player_fp
    average_fantasy_points := avg_fp
    win_percentage := win_prob
    expected_wins := expected_wins
    replacement_win_percentage := replacement_win_prob
    replacement_expected_wins := replacement_wins
    wins_above_replacement := wins_above_replacement
    wins_above_average := wins_above_average
    team_average_score := team_context.team_avg_score
    team_score_std := team_context.team_score_std }

/-! ### Auction value calculator (calculators/auction_values.py) -/

/-- Python round(x, 0): round half to even on the reals. -/
noncomputable def pyRound (x : ℝ) : ℝ :=
  if x - (⌊x⌋ : ℝ) = 1/2 then
    (if Even ⌊x⌋ then (⌊x⌋ : ℝ) else (⌊x⌋ : ℝ) + 1)
  else (round x : ℤ)

/-- Population standard deviation as computed by numpy.std with the default
ddof of zero. -/
noncomputable def npstd (l : List ℝ) : ℝ :=
  Real.sqrt ((l.map (fun x => (x - l.sum / l.length) ^ 2)).sum / l.length)

/-- WARResult fields consumed by the auction value calculator. -/
structure WarRec where
  player_id : String
  season : Int
  position : String
  player_name : Option String := none
  wins_above_replacement : ℝ
  games_played : ℤ

/-- PositionWAR fields consumed by the auction value calculator. -/
structure PositionWARRec where
  position : String
  total_starter_spots : ℕ
  player_wars : List WarRec

/-- PositionWAR.qualified_players (models/war_results.py lines 96-99):
players with at least one game played. -/
def PositionWARRec.qualified_players (p : PositionWARRec) : List WarRec :=
  p.player_wars.filter (fun w => 1 ≤ w.games_played)

/-- LeagueWAR fields consumed by the auction value calculator. -/
structure LeagueWARRec where
  position_results : List (String × PositionWARRec)

/-- AuctionValue record of models/war_results.py; the sleeper and bust flags
are classical propositions because their defining comparisons are over the
reals. -/
structure AuctionValue where
  player_id : String
  season : Int
  position : String
  player_name : Option String
  wins_above_replacement : ℝ
  war_rank_overall : ℕ
  war_rank_position : ℕ
  auction_value_dollars : ℝ
  value_per_war : ℝ
  value_over_replacement : ℝ
  positional_scarcity_multiplier : ℝ
  draft_tier : ℕ
  is_sleeper : Prop
  is_bust_risk : Prop
  league_budget_total : ℤ

/-- AuctionValueCalculator._calculate_positional_scarcity for one position
(calculators/auction_values.py lines 129-162). -/
noncomputable def auction_scarcity_for_position (pos_result : PositionWARRec) : ℝ :=
  if pos_result.player_wars = [] then 1
  else
    let war_values := pos_result.qualified_players.map (·.wins_above_replacement)
    match war_values with
    | [] => 1
    | w0 :: wrest =>
      if war_values.length < 2 then 1
      else
        let war_std := npstd war_values
        let war_max := wrest.foldl max w0
        let dropoff_factor := if 0 < war_max then war_max - 0 else 1
        let starter_spots := pos_result.total_starter_spots
        let qualified_count := pos_result.qualified_players.length
        let depth_factor :=
          if 0 < qualified_count then
            (starter_spots : ℝ) / ((max qualified_count starter_spots : ℕ) : ℝ)
          else 1
        min (1 + war_std * dropoff_factor * depth_factor * (1/10)) (9/5)

/-- AuctionValueCalculator._calculate_positional_scarcity
(calculators/auction_values.py lines 115-165): the per-position multiplier
table. -/
noncomputable def auction_positional_scarcity (league_war : LeagueWARRec) :
    List (String × ℝ) :=
  league_war.position_results.map (fun pr => (pr.1, auction_scarcity_for_position pr.2))

/-- AuctionValueCalculator._calculate_base_value_per_war
(calculators/auction_values.py lines 81-113). -/
noncomputable def _calculate_base_value_per_war (total_league_budget : ℝ)
    (war_results : List WarRec) : ℝ :=
  let positive_war_players := war_results.filter
    (fun w => 0 < w.wins_above_replacement)
  if positive_war_players = [] then 1
  else
    let total_war := (positive_war_players.map (·.wins_above_replacement)).sum
    let available_budget := total_league_budget * (13/20)
    if 0 < total_war then available_budget / total_war else 1

/-- AuctionValueCalculator._calculate_rank_multiplier
(calculators/auction_values.py lines 237-259). -/
noncomputable def _calculate_rank_multiplier (overall_rank : ℕ) : ℝ :=
  if overall_rank ≤ 5 then 13/10
  else if overall_rank ≤ 12 then 6/5
  else if overall_rank ≤ 24 then 11/10
  else if overall_rank ≤ 50 then 1
  else if overall_rank ≤ 100 then 19/20
  else 9/10

/-- AuctionValueCalculator._get_position_rank
(calculators/auction_values.py lines 261-286). -/
noncomputable def _get_position_rank (war_result : WarRec)
    (all_war_results : List WarRec) : ℕ :=
  let position_players := all_war_results.filter
    (fun x => x.position = war_result.position)
  let sorted := sortBy
    (fun a b => b.wins_above_replacement ≤ a.wins_above_replacement) position_players
  match sorted.findIdx? (fun p => p.player_id == war_result.player_id) with
  | some i => i + 1
  | none => position_players.length + 1

/-- AuctionValueCalculator._calculate_draft_tier
(calculators/auction_values.py lines 288-307). -/
noncomputable def _calculate_draft_tier (total_budget : ℝ) (overall_rank : ℕ)
    (auction_value : ℝ) : ℕ :=
  if overall_rank ≤ 12 ∧ total_budget * (1/4) ≤ auction_value then 1
  else if overall_rank ≤ 24 ∧ total_budget * (3/20) ≤ auction_value then 2
  else if overall_rank ≤ 50 ∧ total_budget * (2/25) ≤ auction_value then 3
  else if overall_rank ≤ 100 ∧ total_budget * (1/25) ≤ auction_value then 4
  else 5

/-- AuctionValueCalculator._is_sleeper_candidate
(calculators/auction_values.py lines 309-337). -/
def _is_sleeper_candidate (total_budget : ℝ) (war_result : WarRec)
    (auction_value : ℝ) (position_rank : ℕ) : Prop :=
  1/2 < war_result.wins_above_replacement ∧
    auction_value < total_budget * (1/10) ∧ 10 < position_rank ∧
    1/20 < war_result.wins_above_replacement / auction_value

/-- AuctionValueCalculator._is_bust_risk
(calculators/auction_values.py lines 339-366). -/
def _is_bust_risk (total_budget : ℝ) (war_result : WarRec)
    (auction_value : ℝ) (overall_rank : ℕ) : Prop :=
  overall_rank ≤ 24 ∧ total_budget * (3/20) ≤ auction_value ∧
    war_result.wins_above_replacement / auction_value < 3/100

/-- AuctionValueCalculator._calculate_individual_auction_value
(calculators/auction_values.py lines 167-235): clamp of the raw value to at
least one dollar and at most sixty percent of the per-team budget, then a
round to a whole dollar when the AuctionValue record is stored. -/
noncomputable def _calculate_individual_auction_value (total_budget : ℤ)
    (war_result : WarRec) (base_value_per_war position_multiplier : ℝ)
    (overall_rank : ℕ) (all_war_results : List WarRec) : Option AuctionValue :=
  if war_result.wins_above_replacement ≤ 0 then none
  else
    let base_value := war_result.wins_above_replacement * base_value_per_war
    let position_adjusted_value := base_value * position_multiplier
    let rank_multiplier := _calculate_rank_multiplier overall_rank
    let raw_value := position_adjusted_value * rank_multiplier
    let floored_value := max raw_value 1
    let max_value := (total_budget : ℝ) * (3/5)
    let final_value := min floored_value max_value
    let position_rank := _get_position_rank war_result all_war_results
    some
      { player_id := war_result.player_id
        season := war_result.season
        position := war_result.position
        player_name := war_result.player_name
        wins_above_replacement := war_result.wins_above_replacement
        war_rank_overall := overall_rank
        war_rank_position := position_rank
        auction_value_dollars := pyRound final_value
        value_per_war := base_value_per_war
        value_over_replacement := final_value - 1
        positional_scarcity_multiplier := position_multiplier
        draft_tier := _calculate_draft_tier (total_budget : ℝ) overall_rank final_value
        is_sleeper := _is_sleeper_candidate (total_budget : ℝ) war_result
          final_value position_rank
        is_bust_risk := _is_bust_risk (total_budget : ℝ) war_result
          final_value overall_rank
        league_budget_total := total_budget }

/-- AuctionValueCalculator.calculate_league_auction_values
(calculators/auction_values.py lines 29-79): all WAR results are flattened,
sorted descending by WAR, non-positive WAR players are skipped, and each
remaining player receives an individual auction value with its iteration
rank. -/
noncomputable def calculate_league_auction_values (cfg : LeagueConfig)
    (total_budget : ℤ) (league_war : LeagueWARRec) : List AuctionValue :=
  let all_war_results := league_war.position_results.foldl
    (fun acc pr => acc ++ pr.2.player_wars) []
  let sorted := sortBy
    (fun a b => b.wins_above_replacement ≤ a.wins_above_replacement) all_war_results
  let multipliers := auction_positional_scarcity league_war
  let base_value_per_war := _calculate_base_value_per_war
    ((total_budget : ℝ) * (cfg.teams : ℝ)) sorted
  sorted.enum.filterMap (fun ia =>
    if ia.2.wins_above_replacement ≤ 0 then none
    else _calculate_individual_auction_value total_budget ia.2 base_value_per_war
      ((multipliers.lookup ia.2.position).getD 1) (ia.1 + 1) sorted)

end RealSide

/-! ### Concrete inputs used by the claim witnesses and counterexamples -/

/-- Seventeen qualified quarterbacks with distinct season totals, mirroring
the 16-team one-starting-QB example of the specification. -/
def qbStats : List SeasonRow :=
  [⟨"QB1", "QB", 10, 170, 17⟩, ⟨"QB2", "QB", 10, 160, 16⟩,
   ⟨"QB3", "QB", 10, 150, 15⟩, ⟨"QB4", "QB", 10, 140, 14⟩,
   ⟨"QB5", "QB", 10, 130, 13⟩, ⟨"QB6", "QB", 10, 120, 12⟩,
   ⟨"QB7", "QB", 10, 110, 11⟩, ⟨"QB8", "QB", 10, 100, 10⟩,
   ⟨"QB9", "QB", 10, 90, 9⟩, ⟨"QB10", "QB", 10, 80, 8⟩,
   ⟨"QB11", "QB", 10, 70, 7⟩, ⟨"QB12", "QB", 10, 60, 6⟩,
   ⟨"QB13", "QB", 10, 50, 5⟩, ⟨"QB14", "QB", 10, 40, 4⟩,
   ⟨"QB15", "QB", 10, 30, 3⟩, ⟨"QB16", "QB", 10, 20, 2⟩,
   ⟨"QB17", "QB", 10, 10, 1⟩]

/-- One player with one WAR over one game, playing for a 16-team league with
a one-dollar per-team auction budget: the concrete input on which the claimed
auction value cap fails. -/
noncomputable def wC4 : WarRec := ⟨"p1", 2023, "QB", none, 1, 1⟩

/-- Position record holding the single player above. -/
noncomputable def pC4 : PositionWARRec := ⟨"QB", 16, [wC4]⟩

/-- League record holding the single position above. -/
noncomputable def lwC4 : LeagueWARRec := ⟨[("QB", pC4)]⟩

/-! ### Properties of the insertion sort model -/

theorem mem_insertBy {α : Type} (le : α → α → Bool) (a : α) (l : List α) :
    ∀ x, x ∈ insertBy le a l → x = a ∨ x ∈ l := by
  induction l with
  | nil => intro x hx; simp [insertBy] at hx; exact Or.inl hx
  | cons b t ih =>
    intro x hx
    by_cases h : le a b
    · simp [insertBy, h] at hx
      rcases hx with h1 | h1 | h1
      · exact Or.inl h1
      · exact Or.inr (by simp [h1])
      · exact Or.inr (by simp [h1])
    · simp [insertBy, h] at hx
      rcases hx with h1 | h1
      · exact Or.inr (by simp [h1])
      · rcases ih x h1 with h2 | h2
        · exact Or.inl h2
        · exact Or.inr (by simp [h2])

theorem insertBy_pairwise {α : Type} {R : α → α → Prop} {le : α → α → Bool}
    (hT : ∀ a b c, R a b → R b c → R a c)
    (h1 : ∀ a b, le a b = true → R a b)
    (h2 : ∀ a b, le a b = false → R b a) (a : α) :
    ∀ l : List α, l.Pairwise R → (insertBy le a l).Pairwise R := by
  intro l
  induction l with
  | nil => intro _; simp [insertBy]
  | cons b t ih =>
    intro hp
    rcases List.pairwise_cons.mp hp with ⟨hbt, hpt⟩
    by_cases h : le a b
    · simp only [insertBy, h, if_true]
      refine List.pairwise_cons.mpr ⟨?_, hp⟩
      intro x hx
      rcases List.mem_cons.mp hx with h3 | h3
      · rw [h3]; exact h1 a b h
      · exact hT a b x (h1 a b h) (hbt x h3)
    · simp only [insertBy, h, if_false, Bool.false_eq_true]
      refine List.pairwise_cons.mpr ⟨?_, ih hpt⟩
      intro x hx
      rcases mem_insertBy le a t x hx with h3 | h3
      · rw [h3]; exact h2 a b (by simpa using h)
      · exact hbt x h3

theorem sortBy_pairwise {α : Type} {R : α → α → Prop} {le : α → α → Bool}
    (hT : ∀ a b c, R a b → R b c → R a c)
    (h1 : ∀ a b, le a b = true → R a b)
    (h2 : ∀ a b, le a b = false → R b a) :
    ∀ l : List α, (sortBy le l).Pairwise R := by
  intro l
  induction l with
  | nil => simp [sortBy]
  | cons a t ih => exact insertBy_pairwise hT h1 h2 a _ ih

theorem insertBy_perm {α : Type} (le : α → α → Bool) (a : α) :
    ∀ l : List α, (insertBy le a l).Perm (a :: l) := by
  intro l
  induction l with
  | nil => simp [insertBy]
  | cons b t ih =>
    by_cases h : le a b
    · simp [insertBy, h]
    · simp only [insertBy, h, if_false, Bool.false_eq_true]
      exact (ih.cons b).trans (List.Perm.swap a b t)

theorem sortBy_perm {α : Type} (le : α → α → Bool) :
    ∀ l : List α, (sortBy le l).Perm l := by
  intro l
  induction l with
  | nil => simp [sortBy]
  | cons a t ih => exact (insertBy_perm le a (sortBy le t)).trans (ih.cons a)

theorem sortBy_length {α : Type} (le : α → α → Bool) (l : List α) :
    (sortBy le l).length = l.length :=
  (sortBy_perm le l).length_eq

/-! ### Properties of the standard normal distribution function -/

section NormCdfFacts

open MeasureTheory ProbabilityTheory Set

theorem gaussian_integrableOn (s : Set ℝ) :
    IntegrableOn (gaussianPDFReal 0 1) s :=
  (integrable_gaussianPDFReal 0 1).integrableOn

theorem stdNormCdf_nonneg (z : ℝ) : 0 ≤ stdNormCdf z :=
  setIntegral_nonneg measurableSet_Iic (fun x _ => gaussianPDFReal_nonneg 0 1 x)

theorem stdNormCdf_le_one (z : ℝ) : stdNormCdf z ≤ 1 :=
  calc stdNormCdf z ≤ ∫ x, gaussianPDFReal 0 1 x :=
        setIntegral_le_integral (integrable_gaussianPDFReal 0 1)
          (Filter.Eventually.of_forall (gaussianPDFReal_nonneg 0 1))
    _ = 1 := integral_gaussianPDFReal_eq_one 0 one_ne_zero

theorem stdNormCdf_mono : Monotone stdNormCdf := by
  intro a b hab
  exact setIntegral_mono_set (gaussian_integrableOn _)
    (Filter.Eventually.of_forall (gaussianPDFReal_nonneg 0 1))
    (HasSubset.Subset.eventuallyLE (Iic_subset_Iic.mpr hab))

theorem stdNormCdf_add_Ioc {a b : ℝ} (hab : a ≤ b) :
    stdNormCdf b = stdNormCdf a + ∫ t in Ioc a b, gaussianPDFReal 0 1 t := by
  rw [stdNormCdf, stdNormCdf, ← setIntegral_union (Iic_disjoint_Ioc le_rfl)
    measurableSet_Ioc (gaussian_integrableOn _) (gaussian_integrableOn _),
    Iic_union_Ioc_eq_Iic hab]

theorem stdNormCdf_strictMono : StrictMono stdNormCdf := by
  intro a b hab
  have h1 : 0 < ∫ t in Ioc a b, gaussianPDFReal 0 1 t := by
    rw [← intervalIntegral.integral_of_le hab.le]
    exact intervalIntegral.intervalIntegral_pos_of_pos_on
      (integrable_gaussianPDFReal 0 1).intervalIntegrable
      (fun x _ => gaussianPDFReal_pos 0 1 x one_ne_zero) hab
  have h2 := stdNormCdf_add_Ioc hab.le
  linarith

theorem gaussianPDFReal_even (x : ℝ) :
    gaussianPDFReal 0 1 (-x) = gaussianPDFReal 0 1 x := by
  simp [gaussianPDFReal, neg_sq]

theorem stdNormCdf_zero : stdNormCdf 0 = 1/2 := by
  have hsum : stdNormCdf 0 + (∫ t in Ioi (0 : ℝ), gaussianPDFReal 0 1 t) = 1 := by
    rw [stdNormCdf, ← setIntegral_union (Iic_disjoint_Ioi le_rfl) measurableSet_Ioi
      (gaussian_integrableOn _) (gaussian_integrableOn _), Iic_union_Ioi,
      setIntegral_univ]
    exact integral_gaussianPDFReal_eq_one 0 one_ne_zero
  have hsym : (∫ t in Ioi (0 : ℝ), gaussianPDFReal 0 1 t) = stdNormCdf 0 := by
    have h := integral_comp_neg_Iic (0 : ℝ) (gaussianPDFReal 0 1)
    rw [neg_zero] at h
    rw [stdNormCdf, ← h]
    exact setIntegral_congr_fun measurableSet_Iic
      (fun x _ => gaussianPDFReal_even x)
  linarith

end NormCdfFacts

/-! ### Properties of calculate_win_probability -/

theorem effective_std_pos (s : ℝ) : 0 < (if s ≤ 0 then (1 : ℝ) else s) := by
  split
  · norm_num
  · linarith [not_le.mp (by assumption)]

theorem clamp_unit_eq {u : ℝ} (h0 : 0 ≤ u) (h1 : u ≤ 1) : max 0 (min 1 u) = u := by
  rw [min_eq_right h1, max_eq_right h0]

theorem calculate_win_probability_eq (x m s : ℝ) :
    calculate_win_probability x m s =
      max 0 (min 1 (stdNormCdf ((x - m) / (if s ≤ 0 then 1 else s)))) := rfl

theorem calculate_win_probability_eq_cdf (x m s : ℝ) :
    calculate_win_probability x m s =
      stdNormCdf ((x - m) / (if s ≤ 0 then 1 else s)) := by
  rw [calculate_win_probability_eq]
  exact clamp_unit_eq (stdNormCdf_nonneg _) (stdNormCdf_le_one _)

theorem calculate_win_probability_nonneg (x m s : ℝ) :
    0 ≤ calculate_win_probability x m s := by
  rw [calculate_win_probability_eq]; exact le_max_left 0 _

theorem calculate_win_probability_le_one (x m s : ℝ) :
    calculate_win_probability x m s ≤ 1 := by
  rw [calculate_win_probability_eq]
  exact max_le (by norm_num) (min_le_left 1 _)

theorem calculate_win_probability_strictMono (m s : ℝ) {x y : ℝ} (h : x < y) :
    calculate_win_probability x m s < calculate_win_probability y m s := by
  rw [calculate_win_probability_eq_cdf, calculate_win_probability_eq_cdf]
  apply stdNormCdf_strictMono
  exact (div_lt_div_iff_of_pos_right (effective_std_pos s)).mpr (by linarith)

theorem calculate_win_probability_mono (m s : ℝ) {x y : ℝ} (h : x ≤ y) :
    calculate_win_probability x m s ≤ calculate_win_probability y m s := by
  rcases eq_or_lt_of_le h with h1 | h1
  · rw [h1]
  · exact (calculate_win_probability_strictMono m s h1).le

theorem calculate_win_probability_at_mean (m s : ℝ) :
    calculate_win_probability m m s = 1/2 := by
  rw [calculate_win_probability_eq_cdf, sub_self, zero_div, stdNormCdf_zero]

/-! ### Claim C5: the two kicking scoring paths -/

/-- C5: for every stat mapping with no special-teams fumbles, the
single-player kicking score equals the vectorized kicking score plus 2.0
times the made field goals of 0-19 yards, the only coefficient on which the
two paths differ. -/
theorem C5_kicking_paths_differ_by_short_fg (scoring : KickingScoring)
    (stats : KickingStatline) (h : stats.fumbles_special_teams = 0) :
    calculate_kicking_points scoring stats =
      processor_calculate_kicking_points scoring stats + 2 * stats.fg_made_0_19 := by
  unfold calculate_kicking_points processor_calculate_kicking_points
  rw [h]
  ring

/-- Witness for C5 at a concrete stat line: three short made field goals and
two extra points. -/
theorem C5_kicking_witness :
    ({ fg_made_0_19 := 3, pat_made := 2 } : KickingStatline).fumbles_special_teams = 0 ∧
    calculate_kicking_points {} { fg_made_0_19 := 3, pat_made := 2 } =
      processor_calculate_kicking_points {} { fg_made_0_19 := 3, pat_made := 2 } +
        2 * ({ fg_made_0_19 := 3, pat_made := 2 } : KickingStatline).fg_made_0_19 :=
  ⟨rfl, C5_kicking_paths_differ_by_short_fg {} { fg_made_0_19 := 3, pat_made := 2 } rfl⟩

/-! ### Claim C10: week range validation -/

/-- C10: a range string whose two halves parse to valid weeks a and b
returns the list a, a+1, ..., b when a is at most b, and raises the
descriptive range ValueError when a exceeds b. -/
theorem C10_week_range_validation (s sa sb : String) (a b : Int)
    (hdash : pyContains s '-' = true)
    (hcomma : pyContains s ',' = false)
    (hsplit : splitFirstDash s = (sa, sb))
    (hpa : pyInt sa = some a) (hpb : pyInt sb = some b)
    (ha1 : 1 ≤ a) (ha18 : a ≤ 18) (hb1 : 1 ≤ b) (hb18 : b ≤ 18) :
    (a ≤ b → ∃ L, validate_weeks_list s = Except.ok L ∧
      L.length = (b + 1 - a).toNat ∧
      ∀ i (h : i < L.length), L.get ⟨i, h⟩ = a + i) ∧
    (b < a → validate_weeks_list s =
      Except.error "Invalid week range: start week must be lower or equal to end week.") := by
  have hcond : (pyContains s '-' ∧ ¬ pyContains s ',') := by
    rw [hdash, hcomma]; exact ⟨rfl, by simp⟩
  have hva : validate_week_str sa = Except.ok a := by
    simp only [validate_week_str, hpa]
    rw [if_neg (by omega)]
  have hvb : validate_week_str sb = Except.ok b := by
    simp only [validate_week_str, hpb]
    rw [if_neg (by omega)]
  constructor
  · intro hab
    rw [validate_weeks_list, if_pos hcond, hsplit]
    simp only [hva, hvb]
    rw [if_neg (by omega)]
    refine ⟨_, rfl, ?_, ?_⟩
    · simp
    · intro i h
      simp [List.get_eq_getElem]
  · intro hba
    rw [validate_weeks_list, if_pos hcond, hsplit]
    simp only [hva, hvb]
    rw [if_pos (by omega)]

/-- Witness for C10: the two literal examples of the specification. -/
theorem C10_week_range_witness :
    validate_weeks_list "1-5" = Except.ok [1, 2, 3, 4, 5] ∧
    validate_weeks_list "5-1" =
      Except.error "Invalid week range: start week must be lower or equal to end week." :=
  ⟨rfl,
   (C10_week_range_validation "5-1" "5" "1" 5 1 rfl rfl rfl rfl rfl
      (by norm_num) (by norm_num) (by norm_num) (by norm_num)).2 (by norm_num)⟩

/-! ### Claim C3: win probability bounds, monotonicity and midpoint -/

/-- C3: for every team mean and standard deviation, calculate_win_probability
stays in the closed unit interval, is non-decreasing in the player score,
equals one half at the team mean, and a non-positive standard deviation is
replaced by 1.0 before evaluation. -/
theorem C3_win_probability_shape (team_average_score team_score_std : ℝ) :
    (∀ x, 0 ≤ calculate_win_probability x team_average_score team_score_std ∧
      calculate_win_probability x team_average_score team_score_std ≤ 1) ∧
    (∀ x y, x ≤ y →
      calculate_win_probability x team_average_score team_score_std ≤
        calculate_win_probability y team_average_score team_score_std) ∧
    calculate_win_probability team_average_score team_average_score team_score_std
      = 1/2 ∧
    (team_score_std ≤ 0 → ∀ x,
      calculate_win_probability x team_average_score team_score_std =
        calculate_win_probability x team_average_score 1) := by
  refine ⟨fun x => ⟨calculate_win_probability_nonneg x _ _,
      calculate_win_probability_le_one x _ _⟩,
    fun x y h => calculate_win_probability_mono _ _ h,
    calculate_win_probability_at_mean _ _, fun hs x => ?_⟩
  rw [calculate_win_probability_eq, calculate_win_probability_eq,
    if_pos hs, if_neg (by norm_num)]

/-! ### Claim C9: expected wins never exceed games played -/

/-- C9: every WARResult built by _calculate_player_war has expected wins and
replacement expected wins at most the games played, because each is a win
probability clamped to at most one multiplied by the non-negative games
count. -/
theorem C9_expected_wins_le_games (player_data : PlayerSeasonRow)
    (replacement_info : ReplacementInfoR) (team_context : TeamContext)
    (h : 0 ≤ player_data.games_played) :
    (_calculate_player_war player_data replacement_info team_context).expected_wins ≤
      (_calculate_player_war player_data replacement_info team_context).games_played ∧
    (_calculate_player_war player_data replacement_info
        team_context).replacement_expected_wins ≤
      (_calculate_player_war player_data replacement_info team_context).games_played := by
  constructor
  · show calculate_win_probability _ _ _ * player_data.games_played ≤
      player_data.games_played
    exact mul_le_of_le_one_left h (calculate_win_probability_le_one _ _ _)
  · show calculate_win_probability _ _ _ * player_data.games_played ≤
      player_data.games_played
    exact mul_le_of_le_one_left h (calculate_win_probability_le_one _ _ _)

/-- Witness for C9 at a concrete player, replacement and team context. -/
theorem C9_expected_wins_witness :
    (_calculate_player_war ⟨"p1", 2023, "QB", none, none, 2, 60, 30⟩
        ⟨30, 60, 2, 30⟩ ⟨50, 10⟩).expected_wins ≤
      (_calculate_player_war ⟨"p1", 2023, "QB", none, none, 2, 60, 30⟩
        ⟨30, 60, 2, 30⟩ ⟨50, 10⟩).games_played ∧
    (_calculate_player_war ⟨"p1", 2023, "QB", none, none, 2, 60, 30⟩
        ⟨30, 60, 2, 30⟩ ⟨50, 10⟩).replacement_expected_wins ≤
      (_calculate_player_war ⟨"p1", 2023, "QB", none, none, 2, 60, 30⟩
        ⟨30, 60, 2, 30⟩ ⟨50, 10⟩).games_played :=
  C9_expected_wins_le_games _ _ _ (by norm_num)

/-! ### Claim C1: WAR at the replacement point -/

/-- C1: the WAR engine gives a strictly positive WAR to a player whose total
points (60) and games played (2) exactly equal the replacement players, because
the player side of the computation evaluates the win probability at the total
season points while the replacement side evaluates it at the replacement
average fantasy points (30 here), so the claimed zero point does not hold on
the code. -/
theorem C1_war_nonzero_at_replacement_point :
    (⟨"p1", 2023, "QB", none, none, 2, 60, 30⟩ : PlayerSeasonRow).total_fantasy_points_mppr =
      (⟨30, 60, 2, 30⟩ : ReplacementInfoR).total_fantasy_points ∧
    (⟨"p1", 2023, "QB", none, none, 2, 60, 30⟩ : PlayerSeasonRow).games_played =
      (⟨30, 60, 2, 30⟩ : ReplacementInfoR).games_played ∧
    0 < (_calculate_player_war ⟨"p1", 2023, "QB", none, none, 2, 60, 30⟩
      ⟨30, 60, 2, 30⟩ ⟨50, 10⟩).wins_above_replacement := by
  refine ⟨rfl, rfl, ?_⟩
  show 0 < calculate_win_probability 60 50 10 * 2 -
    calculate_win_probability 30 50 10 * 2
  have h := calculate_win_probability_strictMono 50 10 (show (30 : ℝ) < 60 by norm_num)
  linarith

/-! ### Claim C2: replacement rank and replacement player -/

theorem pairwise_getLast {α : Type} {R : α → α → Prop} (hrefl : ∀ a, R a a) :
    ∀ (l : List α) (hne : l ≠ []), l.Pairwise R → ∀ p ∈ l, R p (l.getLast hne) := by
  intro l
  induction l with
  | nil => intro hne; exact absurd rfl hne
  | cons a t ih =>
    intro hne hp p hmem
    cases t with
    | nil =>
      have hpa : p = a := by simpa using hmem
      rw [hpa]
      simp only [List.getLast_singleton]
      exact hrefl a
    | cons b t2 =>
      have hgl : (a :: b :: t2).getLast hne = (b :: t2).getLast (by simp) :=
        List.getLast_cons (by simp)
      rcases List.mem_cons.mp hmem with h3 | h3
      · rw [h3, hgl]
        exact (List.pairwise_cons.mp hp).1 _ (List.getLast_mem _)
      · rw [hgl]
        exact ih (by simp) (List.pairwise_cons.mp hp).2 p h3

/-- C2: with a positive starter requirement and at least one qualified
player, find_replacement_level returns the record built from the last row of
the top starter-pool-size slice of the qualified players sorted descending
by total points; its rank is the starter pool size when enough qualified
players exist and the qualified count otherwise, and the replacement row has
the least total points within the slice. -/
theorem C2_replacement_rank_and_player (cfg : LeagueConfig)
    (stats : List SeasonRow) (position : String)
    (hmax : (cfg.roster.get_position_requirements position).2 ≠ 0)
    (hteams : 0 < cfg.teams)
    (hq : qualified_at cfg stats position ≠ []) :
    ∃ r,
      ((sortDescByPoints (qualified_at cfg stats position)).take
        (cfg.teams * (cfg.roster.get_position_requirements position).2)).getLast?
          = some r ∧
      find_replacement_level cfg stats position =
        some (replacement_info_of cfg stats position r) ∧
      (replacement_info_of cfg stats position r).player_id = r.player_id ∧
      (replacement_info_of cfg stats position r).total_fantasy_points =
        r.total_fantasy_points_mppr ∧
      (replacement_info_of cfg stats position r).rank =
        min (cfg.teams * (cfg.roster.get_position_requirements position).2)
          (qualified_at cfg stats position).length ∧
      ∀ p ∈ (sortDescByPoints (qualified_at cfg stats position)).take
        (cfg.teams * (cfg.roster.get_position_requirements position).2),
        r.total_fantasy_points_mppr ≤ p.total_fantasy_points_mppr := by
  have hpos : 0 < cfg.teams * (cfg.roster.get_position_requirements position).2 :=
    Nat.mul_pos hteams (Nat.pos_of_ne_zero hmax)
  have hLlen : (sortDescByPoints (qualified_at cfg stats position)).length =
      (qualified_at cfg stats position).length := sortBy_length _ _
  have hLpos : 0 < (sortDescByPoints (qualified_at cfg stats position)).length := by
    rw [hLlen]; exact List.length_pos.mpr hq
  have htake : (sortDescByPoints (qualified_at cfg stats position)).take
      (cfg.teams * (cfg.roster.get_position_requirements position).2) ≠ [] := by
    rw [← List.length_pos, List.length_take]
    omega
  have hr := List.getLast?_eq_getLast _ htake
  have hpair : (sortDescByPoints (qualified_at cfg stats position)).Pairwise
      (fun x y => y.total_fantasy_points_mppr ≤ x.total_fantasy_points_mppr) := by
    apply sortBy_pairwise
    · intro x y z hxy hyz; exact le_trans hyz hxy
    · intro x y h; exact of_decide_eq_true h
    · intro x y h; exact le_of_not_le (of_decide_eq_false h)
  have hptake := List.Pairwise.sublist
    (List.take_sublist (cfg.teams * (cfg.roster.get_position_requirements position).2)
      (sortDescByPoints (qualified_at cfg stats position))) hpair
  refine ⟨_, hr, ?_, rfl, rfl, ?_, ?_⟩
  · unfold find_replacement_level
    dsimp only
    rw [if_neg hmax, hr]
  · show (if (sortDescByPoints (qualified_at cfg stats position)).length <
        cfg.teams * (cfg.roster.get_position_requirements position).2
      then (sortDescByPoints (qualified_at cfg stats position)).length
      else cfg.teams * (cfg.roster.get_position_requirements position).2) = _
    rw [hLlen]
    split <;> omega
  · intro p hp
    exact @pairwise_getLast SeasonRow
      (fun x y => y.total_fantasy_points_mppr ≤ x.total_fantasy_points_mppr)
      (fun x => le_refl _) _ htake hptake p hp

/-- Witness for C2: the default 16-team league with one starting QB and the
seventeen quarterbacks above. -/
theorem C2_replacement_witness :
    ∃ r,
      ((sortDescByPoints (qualified_at {} qbStats "QB")).take
        (({} : LeagueConfig).teams *
          (({} : LeagueConfig).roster.get_position_requirements "QB").2)).getLast?
          = some r ∧
      find_replacement_level {} qbStats "QB" =
        some (replacement_info_of {} qbStats "QB" r) ∧
      (replacement_info_of {} qbStats "QB" r).player_id = r.player_id ∧
      (replacement_info_of {} qbStats "QB" r).total_fantasy_points =
        r.total_fantasy_points_mppr ∧
      (replacement_info_of {} qbStats "QB" r).rank =
        min (({} : LeagueConfig).teams *
          (({} : LeagueConfig).roster.get_position_requirements "QB").2)
          (qualified_at {} qbStats "QB").length ∧
      ∀ p ∈ (sortDescByPoints (qualified_at {} qbStats "QB")).take
        (({} : LeagueConfig).teams *
          (({} : LeagueConfig).roster.get_position_requirements "QB").2),
        r.total_fantasy_points_mppr ≤ p.total_fantasy_points_mppr :=
  C2_replacement_rank_and_player {} qbStats "QB" (by decide) (by decide) (by decide)

/-! ### Claim C6: flex replacement raises NameError -/

/-- C6: whenever at least one flex-eligible player remains and at least one
flex spot exists, find_flex_replacement_level finds a replacement row and
then raises NameError in its final logging statement instead of returning
the assembled dictionary. -/
theorem C6_flex_replacement_raises (cfg : LeagueConfig) (stats : List SeasonRow)
    (flex_positions : List String) (flex_spots : ℕ) (h1 : 1 ≤ flex_spots)
    (h2 : flex_eligible_at cfg stats flex_positions ≠ []) :
    find_flex_replacement_level cfg stats flex_positions flex_spots =
      Except.error "NameError: name replacement_info is not defined" := by
  have hlen : 0 < (flex_eligible_at cfg stats flex_positions).length :=
    List.length_pos.mpr h2
  unfold find_flex_replacement_level
  dsimp only
  set L := flex_eligible_at cfg stats flex_positions with hL
  set rank := if L.length < flex_spots then L.length else flex_spots with hrank
  have hr2 : rank - 1 < L.length := by rw [hrank]; split <;> omega
  have hne0 : ¬ rank = 0 := by rw [hrank]; split <;> omega
  split
  · rename_i heq
    rw [if_neg hne0] at heq
    rw [List.getElem?_eq_none_iff] at heq
    omega
  · rfl

/-- Witness for C6: one eligible wide receiver competing for one flex spot in
a league with no dedicated WR starter slots. -/
theorem C6_flex_witness :
    find_flex_replacement_level { roster := { wr_max := 0 } }
      [⟨"w1", "WR", 1, 10, 10⟩] ["WR"] 1 =
      Except.error "NameError: name replacement_info is not defined" :=
  C6_flex_replacement_raises { roster := { wr_max := 0 } }
    [⟨"w1", "WR", 1, 10, 10⟩] ["WR"] 1 (by norm_num) (by decide)

/-! ### Claim C7: positional scarcity with a single qualified player -/

/-- C7: on a stats table holding exactly one qualified quarterback with
positive total points, calculate_positional_scarcity raises TypeError: the
sample standard deviation of a single value is null and the division
points_std / points_mean fails, so the claimed 1.0 default for positions
with fewer than two qualified players does not hold on the replacement-level
calculator. -/
theorem C7_scarcity_crashes_on_single_player :
    calculate_positional_scarcity {} [⟨"p1", "QB", 1, 10, 10⟩] =
      Except.error "TypeError: unsupported operand types NoneType and float" := by
  with_unfolding_all rfl

/-! ### Claim C8: marginal WAR along the value-over-replacement curve -/

theorem buildCurve_head (wp : ℝ → ℝ) (rw0 : ℝ) :
    ∀ (ps : List ℝ) (prev : ℝ) (p : CurvePoint),
      (buildCurve wp rw0 ps prev).head? = some p → p.marginal_war = p.war - prev := by
  intro ps prev p h
  cases ps with
  | nil => simp [buildCurve] at h
  | cons a t =>
    simp only [buildCurve, List.head?_cons, Option.some.injEq] at h
    rw [← h]

theorem buildCurve_consec (wp : ℝ → ℝ) (rw0 : ℝ) :
    ∀ (ps : List ℝ) (prev : ℝ) (i : ℕ) (p q : CurvePoint),
      (buildCurve wp rw0 ps prev)[i]? = some p →
      (buildCurve wp rw0 ps prev)[i + 1]? = some q →
      q.marginal_war = q.war - p.war := by
  intro ps
  induction ps with
  | nil => intro prev i p q hp hq; simp [buildCurve] at hp
  | cons a t ih =>
    intro prev i p q hp hq
    simp only [buildCurve] at hp hq
    cases i with
    | zero =>
      rw [List.getElem?_cons_zero, Option.some.injEq] at hp
      rw [List.getElem?_cons_succ] at hq
      have hq2 : (buildCurve wp rw0 t (wp a * 17 - rw0)).head? = some q := by
        rw [List.head?_eq_getElem?]; exact hq
      have h4 := buildCurve_head wp rw0 t (wp a * 17 - rw0) q hq2
      rw [h4, ← hp]
    | succ j =>
      rw [List.getElem?_cons_succ] at hp hq
      exact ih (wp a * 17 - rw0) j p q hp hq

/-- C8 (amended): the curve is empty for an invalid range; the first point
carries a marginal WAR equal to its own WAR (its WAR minus the initial
accumulator 0, not the 0 the specification claims), and each later point
carries its WAR minus the WAR of the preceding point. -/
theorem C8_curve_marginal_war (min_points max_points replacement_level_points : ℝ)
    (ctx : TeamContext) (num_points : ℕ) :
    (max_points ≤ min_points →
      calculate_value_over_replacement_curve min_points max_points
        replacement_level_points ctx num_points = []) ∧
    (∀ p, (calculate_value_over_replacement_curve min_points max_points
        replacement_level_points ctx num_points).head? = some p →
      p.marginal_war = p.war) ∧
    (∀ i p q,
      (calculate_value_over_replacement_curve min_points max_points
        replacement_level_points ctx num_points)[i]? = some p →
      (calculate_value_over_replacement_curve min_points max_points
        replacement_level_points ctx num_points)[i + 1]? = some q →
      q.marginal_war = q.war - p.war) := by
  by_cases hc : max_points ≤ min_points
  · refine ⟨fun _ => ?_, fun p hp => ?_, fun i p q hp hq => ?_⟩
    · rw [calculate_value_over_replacement_curve, if_pos hc]
    · rw [calculate_value_over_replacement_curve, if_pos hc] at hp
      simp at hp
    · rw [calculate_value_over_replacement_curve, if_pos hc] at hp
      simp at hp
  · refine ⟨fun h => absurd h hc, fun p hp => ?_, fun i p q hp hq => ?_⟩
    · rw [calculate_value_over_replacement_curve, if_neg hc] at hp
      have h := buildCurve_head _ _ _ _ p hp
      simpa using h
    · rw [calculate_value_over_replacement_curve, if_neg hc] at hp hq
      exact buildCurve_consec _ _ _ _ i p q hp hq

set_option maxRecDepth 4000 in
/-- Counterexample for C8 as stated: on the range 0 to 1 with replacement
points 1, team mean 0 and standard deviation 1, the first curve point has a
strictly negative marginal WAR, not the claimed 0. -/
theorem C8_first_marginal_not_zero :
    ((calculate_value_over_replacement_curve 0 1 1 ⟨0, 1⟩ 100).head?.map
      (fun p => p.marginal_war)) ≠ some 0 := by
  have hc : ¬ ((1 : ℝ) ≤ 0) := by norm_num
  rw [calculate_value_over_replacement_curve, if_neg hc]
  rw [linspace, if_neg (by norm_num : ¬ (100 : ℕ) = 0),
    if_neg (by norm_num : ¬ (100 : ℕ) = 1)]
  rw [show (100 : ℕ) = 99 + 1 from rfl, List.range_succ_eq_map]
  simp only [List.map_cons, buildCurve, List.head?_cons, Option.map_some]
  simp only [ne_eq, Option.some.injEq]
  have hmono := calculate_win_probability_strictMono 0 1 (show (0 : ℝ) < 1 by norm_num)
  intro h
  norm_num at h
  linarith

/-! ### Claim C4: auction value bounds -/

theorem pyRound_le (x : ℝ) : pyRound x ≤ x + 1/2 := by
  unfold pyRound
  by_cases htie : x - (⌊x⌋ : ℝ) = 1/2
  · rw [if_pos htie]
    by_cases he : Even ⌊x⌋
    · rw [if_pos he]; linarith
    · rw [if_neg he]; linarith
  · rw [if_neg htie]
    have h := abs_sub_round x
    rw [abs_le] at h
    linarith [h.1, h.2]

theorem pyRound_one_le {x : ℝ} (h : 1/2 < x) : 1 ≤ pyRound x := by
  unfold pyRound
  by_cases htie : x - (⌊x⌋ : ℝ) = 1/2
  · have h0 : (0 : ℝ) < (⌊x⌋ : ℝ) := by linarith
    have h0i : (0 : ℤ) < ⌊x⌋ := by exact_mod_cast h0
    have h1 : (1 : ℝ) ≤ (⌊x⌋ : ℝ) := by exact_mod_cast h0i
    rw [if_pos htie]
    by_cases he : Even ⌊x⌋
    · rw [if_pos he]; linarith
    · rw [if_neg he]; linarith
  · rw [if_neg htie]
    have h2 : (1 : ℤ) ≤ round x := by
      rw [round_eq]
      exact Int.le_floor.mpr (by push_cast; linarith)
    exact_mod_cast h2

theorem pyRound_eq_one {x : ℝ} (h1 : 1/2 < x) (h2 : x < 3/2) : pyRound x = 1 := by
  unfold pyRound
  by_cases htie : x - (⌊x⌋ : ℝ) = 1/2
  · exfalso
    have h3 : (0 : ℝ) < (⌊x⌋ : ℝ) := by linarith
    have h4 : (⌊x⌋ : ℝ) < 1 := by linarith
    have h5 : (0 : ℤ) < ⌊x⌋ := by exact_mod_cast h3
    have h6 : ⌊x⌋ < (1 : ℤ) := by exact_mod_cast h4
    omega
  · rw [if_neg htie]
    have h7 : ⌊x + 1/2⌋ = 1 := by
      rw [Int.floor_eq_iff]
      constructor <;> push_cast <;> linarith
    rw [round_eq, h7]
    norm_num

theorem clamp_round_bounds (B raw : ℝ) (hB : 1 ≤ B) :
    1 ≤ pyRound (min (max raw 1) (B * (3/5))) ∧
    pyRound (min (max raw 1) (B * (3/5))) ≤ (3/5) * B + 1/2 := by
  have hF1 : 1/2 < min (max raw 1) (B * (3/5)) := by
    apply lt_min
    · linarith [le_max_right raw 1]
    · nlinarith
  constructor
  · exact pyRound_one_le hF1
  · have h2 : min (max raw 1) (B * (3/5)) ≤ B * (3/5) := min_le_right _ _
    have h3 := pyRound_le (min (max raw 1) (B * (3/5)))
    linarith

/-- C4 (amended): every auction value produced by
calculate_league_auction_values for an integer per-team budget of at least
one dollar lies between 1.0 and sixty percent of the budget plus half a
dollar, the half dollar coming from the final round to a whole dollar. -/
theorem C4_auction_value_bounds (cfg : LeagueConfig) (total_budget : ℤ)
    (league_war : LeagueWARRec) (av : AuctionValue) (hb : 1 ≤ total_budget)
    (hm : av ∈ calculate_league_auction_values cfg total_budget league_war) :
    1 ≤ av.auction_value_dollars ∧
      av.auction_value_dollars ≤ (3/5) * (total_budget : ℝ) + 1/2 := by
  have hbR : (1 : ℝ) ≤ (total_budget : ℝ) := by exact_mod_cast hb
  unfold calculate_league_auction_values at hm
  rw [List.mem_filterMap] at hm
  obtain ⟨ia, hmem, hav⟩ := hm
  by_cases hw : ia.2.wins_above_replacement ≤ 0
  · rw [if_pos hw] at hav; exact absurd hav (by simp)
  · rw [if_neg hw] at hav
    unfold _calculate_individual_auction_value at hav
    rw [if_neg hw] at hav
    rw [Option.some.injEq] at hav
    rw [← hav]
    dsimp only
    exact clamp_round_bounds _ _ hbR

theorem C4_scarcity_one : auction_scarcity_for_position pC4 = 1 := by
  unfold auction_scarcity_for_position
  rw [if_neg (by simp [pC4])]
  have hq : pC4.qualified_players = [wC4] := by
    simp [PositionWARRec.qualified_players, pC4, wC4]
  rw [hq]
  simp [wC4]

theorem C4_base_value : _calculate_base_value_per_war
    (((1 : ℤ) : ℝ) * ((16 : ℕ) : ℝ)) [wC4] = 52/5 := by
  unfold _calculate_base_value_per_war
  dsimp only
  have hf : List.filter (fun w => decide (0 < w.wins_above_replacement)) [wC4] = [wC4] := by
    simp [wC4]
  rw [hf]
  rw [if_neg (by simp)]
  simp [wC4]
  norm_num

theorem C4_run : ∃ av, calculate_league_auction_values {} 1 lwC4 = [av] ∧
    av.auction_value_dollars = 1 := by
  unfold calculate_league_auction_values
  dsimp only
  have hall : lwC4.position_results.foldl (fun acc pr => acc ++ pr.2.player_wars) []
      = [wC4] := by simp [lwC4, pC4]
  rw [hall]
  have hsort : sortBy
      (fun a b => b.wins_above_replacement ≤ a.wins_above_replacement) [wC4] = [wC4] := by
    simp [sortBy, insertBy]
  rw [hsort]
  simp only [List.enum, List.enumFrom, List.filterMap_cons, List.filterMap_nil]
  rw [if_neg (show ¬ wC4.wins_above_replacement ≤ 0 by simp [wC4])]
  unfold _calculate_individual_auction_value
  rw [if_neg (show ¬ wC4.wins_above_replacement ≤ 0 by simp [wC4])]
  have hlook : (List.lookup wC4.position (auction_positional_scarcity lwC4)).getD 1 = 1 := by
    simp only [auction_positional_scarcity, lwC4, List.map_cons, List.map_nil,
      C4_scarcity_one]
    simp [List.lookup, wC4]
  rw [hlook]
  dsimp only
  refine ⟨_, rfl, ?_⟩
  dsimp only
  rw [C4_base_value]
  have harg : ((wC4.wins_above_replacement * (52/5 : ℝ) * 1 *
      _calculate_rank_multiplier (0 + 1)) ⊔ 1) ⊓ (((1 : ℤ) : ℝ) * (3/5)) = (3/5 : ℝ) := by
    have hw : wC4.wins_above_replacement = (1 : ℝ) := rfl
    have hrm : _calculate_rank_multiplier (0 + 1) = (13/10 : ℝ) := by
      unfold _calculate_rank_multiplier
      norm_num
    rw [hw, hrm]
    rw [max_eq_left (by norm_num)]
    rw [min_eq_right (by push_cast; norm_num)]
    push_cast
    norm_num
  rw [harg]
  exact pyRound_eq_one (by norm_num) (by norm_num)

/-- Counterexample for C4 as stated: with a one-dollar per-team budget the
single produced auction value is one dollar, which exceeds the claimed
inclusive cap of sixty percent of the budget. -/
theorem C4_value_exceeds_claimed_cap :
    (calculate_league_auction_values {} 1 lwC4).map (fun av => av.auction_value_dollars)
      = [1] ∧ (3/5 : ℝ) * ((1 : ℤ) : ℝ) < 1 := by
  obtain ⟨av, hl, hv⟩ := C4_run
  constructor
  · rw [hl]; simp [hv]
  · push_cast; norm_num

/-- Witness for C4 (amended) at the concrete one-dollar-budget league. -/
theorem C4_auction_bounds_witness :
    ∃ av, av ∈ calculate_league_auction_values {} 1 lwC4 ∧
      1 ≤ av.auction_value_dollars ∧
      av.auction_value_dollars ≤ (3/5) * ((1 : ℤ) : ℝ) + 1/2 := by
  obtain ⟨av, hl, hv⟩ := C4_run
  have hmem : av ∈ calculate_league_auction_values {} 1 lwC4 := by rw [hl]; simp
  exact ⟨av, hmem, C4_auction_value_bounds {} 1 lwC4 av (by norm_num) hmem⟩

end FantasyWar
